import Mathlib

/-!
Shallow embedding of the senior-care chat relay (Express router `api/chat`
plus its context renderer) and proofs about its behaviour.

The source is JavaScript; the embedding makes the JS dynamic checks explicit:
truthiness of strings and numbers, strict `!== undefined` comparison, the
`|| 8` default, and the call/no-call behaviour of the HTTP handler. Wall-clock
impurity is modelled by passing the already-formatted locale date and time
strings and a broken-down UTC date (for `toISOString`) as parameters.
-/

/-- A medication entry `{name, time, taken}` of `userData.medications`. -/
structure Medication where
  name : String
  time : String
  taken : Bool
deriving DecidableEq

/-- An emergency contact `{name, phone}` of `userData.emergencyContacts`. -/
structure Contact where
  name : String
  phone : String
deriving DecidableEq

/-- The well-formed shape of the optional `userData` object destructured from
the request body. `itemLocations` is a JS object; its `Object.entries`
insertion order is modelled as the list order. -/
structure UserData where
  location : Option String := none
  medications : Option (List Medication) := none
  itemLocations : Option (List (String × String)) := none
  waterIntake : Option Int := none
  waterGoal : Option Int := none
  emergencyContacts : Option (List Contact) := none
deriving DecidableEq

/-- The `Current date and time: ... at ...` line: the two locale-formatted
components of `new Date()` are parameters of the embedding. -/
def dateLine (ds ts : String) : String :=
  "Current date and time: " ++ ds ++ " at " ++ ts

/-- `if (userData.location) { push } `: a string is JS-truthy iff non-empty. -/
def locationLines (loc : Option String) : List String :=
  match loc with
  | some s => if s == "" then [] else ["User\x27s location: " ++ s]
  | none => []

/-- Rendering of one medication:
`name at time (taken|not taken yet today)`. -/
def renderMed (m : Medication) : String :=
  m.name ++ " at " ++ m.time ++ " (" ++
    (if m.taken then "taken" else "not taken yet") ++ " today)"

/-- The comma-joined medications text prefixed with its label. -/
def medsRendered (l : List Medication) : String :=
  "Current medications: " ++ String.intercalate ", " (l.map renderMed)

/-- The comma-joined `item: location` text prefixed with its label. -/
def itemsRendered (l : List (String × String)) : String :=
  "Item locations: " ++ String.intercalate ", " (l.map (fun p => p.1 ++ ": " ++ p.2))

/-- The comma-joined `name: phone` text prefixed with its label. -/
def contactsRendered (l : List Contact) : String :=
  "Emergency contacts: " ++ String.intercalate ", " (l.map (fun c => c.name ++ ": " ++ c.phone))

/-- `x && x.length > 0` guarding a single pushed line: an array (even `[]`)
is truthy, so the only effective guard for a well-formed field is
`length > 0`. -/
def optListLines (render : List α → String) (x : Option (List α)) : List String :=
  match x with
  | some l => if 0 < l.length then [render l] else []
  | none => []

/-- The medications block of the context. -/
def medicationLines (meds : Option (List Medication)) : List String :=
  optListLines medsRendered meds

/-- The item-locations block of the context (`Object.keys(x).length > 0`
on a well-formed object is `length > 0` on its entry list). -/
def itemLocationLines (items : Option (List (String × String))) : List String :=
  optListLines itemsRendered items

/-- The emergency-contacts block of the context. -/
def contactLines (cs : Option (List Contact)) : List String :=
  optListLines contactsRendered cs

/-- `userData.waterGoal || 8`: both `undefined` and the falsy number `0`
fall back to `8`. -/
def effectiveWaterGoal (goal : Option Int) : Int :=
  match goal with
  | some g => if g = 0 then 8 else g
  | none => 8

/-- The rendered water-intake line. -/
def waterLine (intake goal : Int) : String :=
  "Water intake today: " ++ toString intake ++ " cups out of " ++
    toString goal ++ " cup daily goal"

/-- `if (userData.waterIntake !== undefined) { push }`: strict presence
test, value `0` included. -/
def waterLines (intake goal : Option Int) : List String :=
  match intake with
  | some n => [waterLine n (effectiveWaterGoal goal)]
  | none => []

/-- The `context` array built by `buildUserContext`, in push order. -/
def contextList (ds ts : String) (ud : UserData) : List String :=
  [dateLine ds ts] ++ locationLines ud.location ++ medicationLines ud.medications ++
    itemLocationLines ud.itemLocations ++ waterLines ud.waterIntake ud.waterGoal ++
    contactLines ud.emergencyContacts

/-- `buildUserContext`: the context lines joined with a newline. -/
def buildUserContext (ds ts : String) (ud : UserData) : String :=
  String.intercalate "\n" (contextList ds ts ud)

/-- JS truthiness of the `location` string field. -/
def locationPopulated (loc : Option String) : Bool :=
  match loc with
  | some s => !(s == "")
  | none => false

/-- Whether an optional array field passes `x && x.length > 0`. -/
def optListPopulated (x : Option (List α)) : Bool :=
  match x with
  | some l => decide (0 < l.length)
  | none => false

/-- The number of the five optional fields that contribute a line. -/
def populatedCount (ud : UserData) : Nat :=
  (if locationPopulated ud.location then 1 else 0) +
  (if optListPopulated ud.medications then 1 else 0) +
  (if optListPopulated ud.itemLocations then 1 else 0) +
  (if ud.waterIntake.isSome then 1 else 0) +
  (if optListPopulated ud.emergencyContacts then 1 else 0)

theorem locationLines_length (loc : Option String) :
    (locationLines loc).length = if locationPopulated loc then 1 else 0 := by
  cases loc with
  | none => rfl
  | some s =>
    simp only [locationLines, locationPopulated]
    by_cases h : s == "" <;> simp [h]

theorem optListLines_length (render : List α → String) (x : Option (List α)) :
    (optListLines render x).length = if optListPopulated x then 1 else 0 := by
  cases x with
  | none => rfl
  | some l =>
    simp only [optListLines, optListPopulated]
    by_cases h : 0 < l.length <;> simp [h]

theorem waterLines_length (intake goal : Option Int) :
    (waterLines intake goal).length = if intake.isSome then 1 else 0 := by
  cases intake <;> rfl

/-- A broken-down UTC instant, as read by `new Date()` when the response
timestamp is produced. The model covers the years 0-9999, where
`Date.prototype.toISOString` uses the 24-character `YYYY-MM-DDTHH:mm:ss.sssZ`
format. -/
structure JSDate where
  year : Nat
  month : Nat
  day : Nat
  hour : Nat
  minute : Nat
  second : Nat
  ms : Nat
deriving DecidableEq

/-- The decimal digit character for `n % 10`. -/
def digitChar10 (n : Nat) : Char :=
  Char.ofNat (48 + n % 10)

/-- Model of `Date.prototype.toISOString`: zero-padded
`YYYY-MM-DDTHH:mm:ss.sssZ`. -/
def toISOString (d : JSDate) : String :=
  String.mk [digitChar10 (d.year / 1000), digitChar10 (d.year / 100),
    digitChar10 (d.year / 10), digitChar10 d.year, '-',
    digitChar10 (d.month / 10), digitChar10 d.month, '-',
    digitChar10 (d.day / 10), digitChar10 d.day, 'T',
    digitChar10 (d.hour / 10), digitChar10 d.hour, ':',
    digitChar10 (d.minute / 10), digitChar10 d.minute, ':',
    digitChar10 (d.second / 10), digitChar10 d.second, '.',
    digitChar10 (d.ms / 100), digitChar10 (d.ms / 10), digitChar10 d.ms, 'Z']

/-- Shape check for the 24-character ISO-8601 timestamp format. -/
def isISOShape : List Char → Bool
  | y1 :: y2 :: y3 :: y4 :: c1 :: m1 :: m2 :: c2 :: d1 :: d2 :: c3 :: h1 :: h2 ::
      c4 :: n1 :: n2 :: c5 :: s1 :: s2 :: c6 :: f1 :: f2 :: f3 :: c7 :: [] =>
    (c1 == '-') && (c2 == '-') && (c3 == 'T') && (c4 == ':') && (c5 == ':') &&
      (c6 == '.') && (c7 == 'Z') &&
      y1.isDigit && y2.isDigit && y3.isDigit && y4.isDigit &&
      m1.isDigit && m2.isDigit && d1.isDigit && d2.isDigit &&
      h1.isDigit && h2.isDigit && n1.isDigit && n2.isDigit &&
      s1.isDigit && s2.isDigit && f1.isDigit && f2.isDigit && f3.isDigit
  | _ => false

/-- A string is a well-formed ISO-8601 timestamp in the sense produced by
`toISOString`. -/
def isISO8601 (s : String) : Bool :=
  isISOShape s.toList

theorem digitChar10_isDigit (n : Nat) : (digitChar10 n).isDigit = true := by
  unfold digitChar10
  have h : n % 10 < 10 := Nat.mod_lt n (by norm_num)
  set k := n % 10 with hk
  interval_cases k <;> decide

theorem isISO8601_toISOString (d : JSDate) : isISO8601 (toISOString d) = true := by
  show isISOShape (String.mk _).toList = true
  rw [show ∀ l : List Char, (String.mk l).toList = l from fun _ => rfl]
  simp [isISOShape, digitChar10_isDigit]

/-- The `message` field of the request body, as the relevant JS value
shapes: absent, `null`, a number, or a string. -/
inductive ReqMessage where
  | missing
  | nullv
  | num (n : Int)
  | str (s : String)
deriving DecidableEq

/-- JS falsiness of the `message` value (`!message`). -/
def jsFalsy : ReqMessage → Bool
  | .missing => true
  | .nullv => true
  | .num n => n == 0
  | .str s => s == ""

/-- `typeof message === "string"`. -/
def isString : ReqMessage → Bool
  | .str _ => true
  | _ => false

/-- The validation guard `!message || typeof message !== "string"`. -/
def messageInvalid (m : ReqMessage) : Bool :=
  jsFalsy m || !isString m

/-- The string payload of a validated message. -/
def messageText : ReqMessage → String
  | .str s => s
  | _ => ""

/-- The persona and guidelines text preceding the user-information label. -/
def personaGuidelines : String :=
  "You are a helpful AI assistant for a senior adult. You help with daily tasks like:\n" ++
  "- Finding items around the house\n" ++
  "- Tracking medications and health\n" ++
  "- Answering questions about time, date, and weather\n" ++
  "- Providing general assistance and companionship\n\n" ++
  "Guidelines for responses:\n" ++
  "- Keep responses clear, warm, and easy to understand\n" ++
  "- Use simple language appropriate for seniors\n" ++
  "- Be patient and encouraging\n" ++
  "- If asked about medical advice, suggest consulting healthcare providers\n" ++
  "- Help with practical daily tasks\n" ++
  "- Be conversational and friendly\n\n"

/-- Everything of the system-prompt template before the spliced context. -/
def promptHead : String :=
  personaGuidelines ++ "Current user information:\n"

/-- Everything of the system-prompt template after the spliced context. -/
def promptTail : String :=
  "\n\nRemember to use this information to give personalized, helpful responses."

/-- The assembled system prompt with the user context spliced in verbatim. -/
def systemPrompt (userContext : String) : String :=
  promptHead ++ userContext ++ promptTail

/-- Fallback string of the 401 branch. -/
def authFallback : String :=
  "I\x27m having trouble connecting right now. Please try again in a moment."

/-- Fallback string of the 429 branch. -/
def rateFallback : String :=
  "I\x27m getting too many requests right now. Please wait a moment and try again."

/-- Fallback string of the catch-all branch. -/
def genericFallback : String :=
  "I\x27m having trouble understanding right now. Could you try asking again?"

/-- One call to `anthropic.messages.create`, with every parameter the code
passes. Messages are `(role, content)` pairs. -/
structure ApiCall where
  model : String
  maxTokens : Nat
  temperature : ℚ
  system : String
  messages : List (String × String)
deriving DecidableEq

/-- The JSON response an invocation of the route produces: HTTP status plus
the optional body fields the handler can set. -/
structure ChatResponse where
  status : Nat
  error : Option String := none
  fallback : Option String := none
  response : Option String := none
  timestamp : Option String := none
deriving DecidableEq

/-- The stubbed outcome of the awaited upstream call: a success carries the
texts of the `content` blocks, a failure carries the optional `status`
property of the thrown error. -/
inductive UpstreamOutcome where
  | ok (contentTexts : List String)
  | fail (status : Option Nat)
deriving DecidableEq

/-- The `router.post` handler: validation, context assembly, one upstream
call, response shaping, and the catch-block error taxonomy. The second
component lists the upstream calls made, with their parameters. A success
whose `content` array is empty throws inside the `try`
(`response.content[0].text`) and lands in the catch-all branch. -/
def chatHandler (now : JSDate) (ds ts : String) (message : ReqMessage)
    (userData : UserData) (upstream : UpstreamOutcome) :
    ChatResponse × List ApiCall :=
  if messageInvalid message then
    ({ status := 400, error := some "Message is required and must be a string" }, [])
  else
    let userContext := buildUserContext ds ts userData
    let call : ApiCall :=
      { model := "claude-3-sonnet-20240229", maxTokens := 300,
        temperature := (7 : ℚ) / 10, system := systemPrompt userContext,
        messages := [("user", messageText message)] }
    match upstream with
    | .ok contentTexts =>
      match contentTexts.head? with
      | some t =>
        ({ status := 200, response := some t,
           timestamp := some (toISOString now) }, [call])
      | none =>
        ({ status := 500, error := some "Failed to get response",
           fallback := some genericFallback }, [call])
    | .fail st =>
      if st = some 401 then
        ({ status := 500, error := some "API authentication failed",
           fallback := some authFallback }, [call])
      else if st = some 429 then
        ({ status := 429, error := some "Rate limit exceeded",
           fallback := some rateFallback }, [call])
      else
        ({ status := 500, error := some "Failed to get response",
           fallback := some genericFallback }, [call])

/-- A possibly malformed JS value stored in an array-typed `userData` field:
absent, a proper array, a string, or a number. -/
inductive LooseArr (α : Type) where
  | undef
  | arr (l : List α)
  | str (s : String)
  | num (n : Int)
deriving DecidableEq

/-- The behaviour of `x && x.length > 0` followed by `x.map(...)` on a
possibly malformed field. An array (even empty) is truthy and its `map`
works. A non-empty string is truthy, its `length` is positive, and calling
`.map` on it throws a TypeError; the empty string is falsy and skipped. A
number is either falsy (`0`) or has `undefined` as `length`, so the
`length > 0` test fails; it is skipped either way. -/
def looseArrLines (render : List α → String) : LooseArr α → Except String (List String)
  | .undef => .ok []
  | .arr l => .ok (if 0 < l.length then [render l] else [])
  | .str s =>
    if s == "" then .ok []
    else .error "TypeError: .map is not a function"
  | .num _ => .ok []

/-- `userData` with the two `.map`-consuming array fields left at their raw
JS value, to expose the behaviour on malformed shapes. -/
structure LooseUserData where
  location : Option String := none
  medications : LooseArr Medication := .undef
  itemLocations : Option (List (String × String)) := none
  waterIntake : Option Int := none
  waterGoal : Option Int := none
  emergencyContacts : LooseArr Contact := .undef
deriving DecidableEq

/-- `buildUserContext` run on loose field values: an `Except.error` is a
thrown TypeError escaping the function. -/
def buildUserContextLoose (ds ts : String) (ud : LooseUserData) :
    Except String String := do
  let medLs ← looseArrLines medsRendered ud.medications
  let contactLs ← looseArrLines contactsRendered ud.emergencyContacts
  .ok (String.intercalate "\n"
    ([dateLine ds ts] ++ locationLines ud.location ++ medLs ++
      itemLocationLines ud.itemLocations ++
      waterLines ud.waterIntake ud.waterGoal ++ contactLs))

/-- C2: for every `userData`, `buildUserContext` joins with newlines a list
of exactly `populatedCount + 1` lines, the date/time line first and then one
line per populated field in the fixed order location, medications, item
locations, water intake, emergency contacts (the order is fixed by the code,
independent of the input's own key order); empty `userData` yields exactly
the date/time line, and empty or missing medications, item locations or
emergency contacts contribute no line at all. -/
theorem buildUserContext_line_structure (ds ts : String) (ud : UserData) :
    buildUserContext ds ts ud = String.intercalate "\n" (contextList ds ts ud) ∧
    contextList ds ts ud =
      dateLine ds ts ::
        (locationLines ud.location ++ medicationLines ud.medications ++
          itemLocationLines ud.itemLocations ++
          waterLines ud.waterIntake ud.waterGoal ++
          contactLines ud.emergencyContacts) ∧
    (contextList ds ts ud).length = populatedCount ud + 1 ∧
    buildUserContext ds ts {} = dateLine ds ts ∧
    medicationLines (some []) = [] ∧ medicationLines none = [] ∧
    itemLocationLines (some []) = [] ∧ itemLocationLines none = [] ∧
    contactLines (some []) = [] ∧ contactLines none = [] := by
  refine ⟨rfl, rfl, ?_, rfl, rfl, rfl, rfl, rfl, rfl, rfl⟩
  simp only [contextList, medicationLines, itemLocationLines, contactLines,
    List.length_append, List.length_singleton, locationLines_length,
    optListLines_length, waterLines_length, populatedCount]
  split_ifs <;> omega

/-- C6: when `waterIntake` is present and `waterGoal` is absent, the rendered
water-intake line states the goal as 8 cups, and that line appears in the
context. -/
theorem waterGoal_defaults_to_eight (ds ts : String) (ud : UserData) (n : Int)
    (h1 : ud.waterIntake = some n) (h2 : ud.waterGoal = none) :
    waterLines ud.waterIntake ud.waterGoal = [waterLine n 8] ∧
    waterLine n 8 ∈ contextList ds ts ud := by
  have hw : waterLines ud.waterIntake ud.waterGoal = [waterLine n 8] := by
    rw [h1, h2]; rfl
  refine ⟨hw, ?_⟩
  simp only [contextList, List.mem_append, hw]
  exact Or.inl (Or.inr (List.mem_singleton.mpr rfl))

/-- C6 witness: intake 3, no goal, evaluated concretely. -/
theorem waterGoal_defaults_to_eight_witness :
    (waterLines (some 3) none = [waterLine 3 8] ∧
      waterLine 3 8 ∈ contextList "D" "T" { waterIntake := some 3 }) ∧
    waterLine 3 8 = "Water intake today: 3 cups out of 8 cup daily goal" :=
  ⟨waterGoal_defaults_to_eight "D" "T" { waterIntake := some 3 } 3 rfl rfl, rfl⟩

/-- C10: a `waterIntake` of 0 still emits the water-intake line (presence is
a strict `!== undefined` test, not truthiness), while a `waterGoal` of 0 is
rendered as 8 because `|| 8` treats every falsy goal as absent. -/
theorem waterIntake_zero_waterGoal_zero (goal : Option Int) (n : Int) :
    (waterLines (some 0) goal).length = 1 ∧
    waterLines (some n) (some 0) = [waterLine n 8] ∧
    effectiveWaterGoal (some 0) = 8 := by
  refine ⟨rfl, ?_, rfl⟩
  simp [waterLines, effectiveWaterGoal]

/-- A concrete instant used to evaluate the handler at specific inputs. -/
def sampleDate : JSDate :=
  { year := 2025, month := 3, day := 7, hour := 14, minute := 5, second := 30, ms := 250 }

/-- C1: a request whose `message` is not a string (missing, `null`, numeric,
...) gets HTTP 400 with an error payload and no upstream call is made. -/
theorem chat_rejects_nonstring_message (now : JSDate) (ds ts : String)
    (m : ReqMessage) (ud : UserData) (up : UpstreamOutcome)
    (h : isString m = false) :
    (chatHandler now ds ts m ud up).1.status = 400 ∧
    (chatHandler now ds ts m ud up).1.error =
      some "Message is required and must be a string" ∧
    (chatHandler now ds ts m ud up).2 = [] := by
  have hv : messageInvalid m = true := by
    simp [messageInvalid, h]
  simp [chatHandler, hv]

/-- C1 witness: `message: null` and a numeric `message`, with a live stubbed
upstream that is never consulted. -/
theorem chat_rejects_nonstring_message_witness :
    ((chatHandler sampleDate "D" "T" ReqMessage.nullv {} (UpstreamOutcome.ok ["hi"])).1.status = 400 ∧
      (chatHandler sampleDate "D" "T" ReqMessage.nullv {} (UpstreamOutcome.ok ["hi"])).1.error =
        some "Message is required and must be a string" ∧
      (chatHandler sampleDate "D" "T" ReqMessage.nullv {} (UpstreamOutcome.ok ["hi"])).2 = []) ∧
    ((chatHandler sampleDate "D" "T" (ReqMessage.num 5) {} (UpstreamOutcome.ok ["hi"])).1.status = 400 ∧
      (chatHandler sampleDate "D" "T" (ReqMessage.num 5) {} (UpstreamOutcome.ok ["hi"])).1.error =
        some "Message is required and must be a string" ∧
      (chatHandler sampleDate "D" "T" (ReqMessage.num 5) {} (UpstreamOutcome.ok ["hi"])).2 = []) :=
  ⟨chat_rejects_nonstring_message sampleDate "D" "T" ReqMessage.nullv {}
      (UpstreamOutcome.ok ["hi"]) rfl,
    chat_rejects_nonstring_message sampleDate "D" "T" (ReqMessage.num 5) {}
      (UpstreamOutcome.ok ["hi"]) rfl⟩

/-- C9: the empty string `""` is a string, yet the request is rejected with
HTTP 400 and no upstream call, because `!message` rejects every falsy value. -/
theorem chat_rejects_empty_string_message (now : JSDate) (ds ts : String)
    (ud : UserData) (up : UpstreamOutcome) :
    isString (ReqMessage.str "") = true ∧
    (chatHandler now ds ts (ReqMessage.str "") ud up).1.status = 400 ∧
    (chatHandler now ds ts (ReqMessage.str "") ud up).1.error =
      some "Message is required and must be a string" ∧
    (chatHandler now ds ts (ReqMessage.str "") ud up).2 = [] := by
  have hv : messageInvalid (ReqMessage.str "") = true := rfl
  refine ⟨rfl, ?_, ?_, ?_⟩ <;> simp [chatHandler, hv]

/-- C7: a single request makes at most one upstream call: none when
validation fails, exactly one otherwise, with no retry on any outcome. -/
theorem chat_at_most_one_upstream_call (now : JSDate) (ds ts : String)
    (m : ReqMessage) (ud : UserData) (up : UpstreamOutcome) :
    (chatHandler now ds ts m ud up).2.length ≤ 1 ∧
    (chatHandler now ds ts m ud up).2.length =
      if messageInvalid m then 0 else 1 := by
  unfold chatHandler
  by_cases hv : messageInvalid m
  · simp [hv]
  · cases up with
    | ok texts => cases texts <;> simp [hv]
    | fail st =>
      by_cases h1 : st = some 401
      · simp [hv, h1]
      · by_cases h2 : st = some 429 <;> simp [hv, h1, h2]

/-- C8: every valid request makes the upstream call with the persona
template whose `Current user information:` label is followed verbatim by the
rendered context, `max_tokens` 300, `temperature` 0.7, and a single
`user`-role turn carrying the caller's raw message string. -/
theorem chat_upstream_call_params (now : JSDate) (ds ts s : String)
    (ud : UserData) (up : UpstreamOutcome) (h : s ≠ "") :
    (chatHandler now ds ts (ReqMessage.str s) ud up).2 =
      [{ model := "claude-3-sonnet-20240229", maxTokens := 300,
         temperature := (7 : ℚ) / 10,
         system := promptHead ++ buildUserContext ds ts ud ++ promptTail,
         messages := [("user", s)] }] ∧
    promptHead = personaGuidelines ++ "Current user information:\n" := by
  have hv : messageInvalid (ReqMessage.str s) = false := by
    simp [messageInvalid, jsFalsy, isString, h]
  refine ⟨?_, rfl⟩
  unfold chatHandler
  rw [hv]
  cases up with
  | ok texts => cases texts <;> rfl
  | fail st =>
    by_cases h1 : st = some 401
    · simp [h1, systemPrompt, messageText]
    · by_cases h2 : st = some 429 <;> simp [h1, h2, systemPrompt, messageText]

/-- C8 witness: a concrete valid request, with the call parameters spelled
out. -/
theorem chat_upstream_call_params_witness :
    (chatHandler sampleDate "D" "T" (ReqMessage.str "hello") {}
        (UpstreamOutcome.ok ["hi"])).2 =
      [{ model := "claude-3-sonnet-20240229", maxTokens := 300,
         temperature := (7 : ℚ) / 10,
         system := promptHead ++ buildUserContext "D" "T" {} ++ promptTail,
         messages := [("user", "hello")] }] ∧
    promptHead = personaGuidelines ++ "Current user information:\n" :=
  chat_upstream_call_params sampleDate "D" "T" "hello" {}
    (UpstreamOutcome.ok ["hi"]) (by decide)

/-- C3: a stubbed upstream error with status 401 yields HTTP 500 with error
code `API authentication failed` and a non-empty fallback; status 429 yields
HTTP 429 with its own distinct fallback; every other error yields HTTP 500
with the generic fallback; each of the three responses carries both an
`error` and a `fallback` field. -/
theorem chat_error_taxonomy (now : JSDate) (ds ts s : String) (ud : UserData)
    (h : s ≠ "") :
    (chatHandler now ds ts (ReqMessage.str s) ud (.fail (some 401))).1 =
      { status := 500, error := some "API authentication failed",
        fallback := some authFallback } ∧
    authFallback ≠ "" ∧
    (chatHandler now ds ts (ReqMessage.str s) ud (.fail (some 429))).1 =
      { status := 429, error := some "Rate limit exceeded",
        fallback := some rateFallback } ∧
    rateFallback ≠ authFallback ∧ rateFallback ≠ genericFallback ∧
    (∀ st : Option Nat, st ≠ some 401 → st ≠ some 429 →
      (chatHandler now ds ts (ReqMessage.str s) ud (.fail st)).1 =
        { status := 500, error := some "Failed to get response",
          fallback := some genericFallback }) := by
  have hv : messageInvalid (ReqMessage.str s) = false := by
    simp [messageInvalid, jsFalsy, isString, h]
  refine ⟨?_, by decide, ?_, by decide, by decide, ?_⟩
  · unfold chatHandler; rw [hv]; rfl
  · unfold chatHandler; rw [hv]; simp
  · intro st h1 h2
    unfold chatHandler; rw [hv]; simp [h1, h2]

/-- C3 witness: the three branches evaluated at a concrete request, the
catch-all one at a status-less error. -/
theorem chat_error_taxonomy_witness :
    (chatHandler sampleDate "D" "T" (ReqMessage.str "hi") {} (.fail (some 401))).1 =
      { status := 500, error := some "API authentication failed",
        fallback := some authFallback } ∧
    (chatHandler sampleDate "D" "T" (ReqMessage.str "hi") {} (.fail (some 429))).1 =
      { status := 429, error := some "Rate limit exceeded",
        fallback := some rateFallback } ∧
    (chatHandler sampleDate "D" "T" (ReqMessage.str "hi") {} (.fail none)).1 =
      { status := 500, error := some "Failed to get response",
        fallback := some genericFallback } := by
  have h := chat_error_taxonomy sampleDate "D" "T" "hi" {} (by decide)
  exact ⟨h.1, h.2.2.1, h.2.2.2.2.2 none (by decide) (by decide)⟩

/-- C5: a valid request whose upstream call succeeds with a first content
block carrying text `t` gets HTTP 200 with `response` equal to `t` and a
server-generated timestamp that is a well-formed ISO-8601 string. -/
theorem chat_success_response (now : JSDate) (ds ts s : String)
    (ud : UserData) (texts : List String) (t : String)
    (h : s ≠ "") (ht : texts.head? = some t) :
    (chatHandler now ds ts (ReqMessage.str s) ud (.ok texts)).1 =
      { status := 200, response := some t,
        timestamp := some (toISOString now) } ∧
    isISO8601 (toISOString now) = true := by
  have hv : messageInvalid (ReqMessage.str s) = false := by
    simp [messageInvalid, jsFalsy, isString, h]
  refine ⟨?_, isISO8601_toISOString now⟩
  unfold chatHandler
  rw [hv]
  simp [ht]

/-- C5 witness: a concrete success, with the ISO timestamp evaluated. -/
theorem chat_success_response_witness :
    ((chatHandler sampleDate "D" "T" (ReqMessage.str "hi") {}
        (.ok ["Hello there"])).1 =
      { status := 200, response := some "Hello there",
        timestamp := some (toISOString sampleDate) } ∧
      isISO8601 (toISOString sampleDate) = true) ∧
    toISOString sampleDate = "2025-03-07T14:05:30.250Z" :=
  ⟨chat_success_response sampleDate "D" "T" "hi" {} ["Hello there"]
      "Hello there" (by decide) rfl, by decide⟩

/-- C4: the context renderer is not total on malformed shapes. A numeric
`medications` is skipped silently (its `length` is `undefined`), as the spec
asks, but a non-empty string `medications` passes `x && x.length > 0` and
then `x.map(...)` throws a TypeError escaping `buildUserContext`, against
the spec's requirement to treat anything not iterable as empty. -/
theorem buildUserContextLoose_throws_on_string_medications (ds ts : String) (n : Int) :
    buildUserContextLoose ds ts { medications := LooseArr.str "aspirin" } =
      Except.error "TypeError: .map is not a function" ∧
    buildUserContextLoose ds ts { medications := LooseArr.num n } =
      Except.ok (dateLine ds ts) := by
  constructor
  · rfl
  · show Except.ok (String.intercalate "\n" [dateLine ds ts]) = _
    rfl
